import Mathlib

/-!
# Verification of the wc-now blueprint generation and merge engine

A shallow embedding of the blueprint generator (`src/blueprint/generator.ts`)
and blueprint merger (`src/cli/index.ts`) of the `wc-now` repository, with
theorems settling the frozen claims about them.

Modelling conventions for the JavaScript/TypeScript source:
* A value that JavaScript may leave `undefined` (an absent object property) is
  modelled as an `Option`.  `none` is an absent property.  An input structure
  field is `Option`-wrapped exactly when the source reads it through an
  absence/falsiness guard (`?.`, `|| default`, `!== undefined`, `if (x)`), or
  when the behaviour under its absence is what a claim is about.
* JavaScript string falsiness: `undefined` and `""` are falsy; `x || d`
  substitutes `d` for both.  Objects and arrays (even empty ones) are truthy.
* Template literals are reproduced verbatim as Lean string literals (braces
  written with `\x7b`/`\x7d` escapes; the denoted strings are byte-identical
  to what the JavaScript templates produce).
* Numeric literals in the embedded data are integers in the source, so they
  are modelled as `Int`.
-/

/-- JavaScript `o || d` for a possibly-absent string: `undefined` and the
empty string are falsy and give the default `d`. -/
def jsOrStr (o : Option String) (d : String) : String :=
  match o with
  | none => d
  | some s => if s = "" then d else s

/-- JavaScript truthiness of a possibly-absent string (used by
`if (custom.$schema)`-style guards in the merger): an absent value and the
empty string are falsy. -/
def jsTruthyStr (o : Option String) : Bool :=
  match o with
  | none => false
  | some s => s != ""

/-!
## Remote product model (`src/wc-public-api/types.ts`)

Only the fields the product normalizer `transformWooCommerceProducts` reads
are embedded; the upstream `PublicWooCommerceProduct` type additionally
carries presentation metadata (`id`, `slug`, `permalink`, price-formatting
fields, `tags`, `add_to_cart`, …) that the normalizer never touches.
-/

/-- The three fields of the nested `prices` object that the normalizer reads
(the upstream `WooCommercePrice` also carries currency-formatting metadata,
never read by the normalizer). -/
structure WooCommercePrice where
  price : String
  regular_price : String
  sale_price : String
deriving DecidableEq

/-- A product category object; the normalizer reads only `name`. -/
structure WooCommerceCategory where
  id : Int
  name : String
  slug : String
  link : String
deriving DecidableEq

/-- A product image object; the normalizer reads `src` through `img.src || ""`,
so `src` is modelled as possibly absent. -/
structure WooCommerceImage where
  id : Int
  src : Option String
  name : String
  alt : Option String
deriving DecidableEq

/-- One term of a product attribute. -/
structure WooCommerceAttributeTerm where
  id : Int
  name : String
  slug : String
deriving DecidableEq

/-- A product attribute (passed through structurally unchanged by the
normalizer). -/
structure WooCommerceAttribute where
  id : Int
  name : String
  taxonomy : String
  has_variations : Bool
  terms : List WooCommerceAttributeTerm
deriving DecidableEq

/-- One attribute of a product variation (`value` is `string | null`). -/
structure WooCommerceVariationAttribute where
  name : String
  value : Option String
deriving DecidableEq

/-- A product variation (passed through structurally unchanged). -/
structure WooCommerceVariation where
  id : Int
  attributes : List WooCommerceVariationAttribute
deriving DecidableEq

/-- The remote ("Store API") product record as the normalizer consumes it.
Every field is `Option`-wrapped: the record comes from remote JSON, and the
spec's robustness contract ("malformed or partial input degrades to defaults")
is about absent fields, which the source guards with `?.` and `|| default` for
all fields except `name` and `description` (read bare). -/
structure PublicWooCommerceProduct where
  name : Option String
  description : Option String
  short_description : Option String
  sku : Option String
  prices : Option WooCommercePrice
  is_in_stock : Option Bool
  categories : Option (List WooCommerceCategory)
  images : Option (List WooCommerceImage)
  attributes : Option (List WooCommerceAttribute)
  variations : Option (List WooCommerceVariation)
deriving DecidableEq

/-!
## The canonical product-import record (`ProductImport` in the generator)

`ProductImport` is the TypeScript interface consumed by the blueprint
generator: all scalar fields are declared `string`.  The *runtime* output of
`transformWooCommerceProducts` is modelled separately below, because the
function copies `product.name` and `product.description` without any default,
so an absent upstream value flows through as `undefined` at runtime even
though the interface declares `string`.
-/

/-- The `ProductImport` interface of `src/blueprint/generator.ts`. -/
structure ProductImport where
  name : String
  description : String
  short_description : String
  price : String
  regular_price : String
  sale_price : String
  sku : String
  stock_status : String
  categories : List String
  images : List String
  attributes : List WooCommerceAttribute
  variations : List WooCommerceVariation
deriving DecidableEq

/-- The runtime shape of one record produced by `transformWooCommerceProducts`:
identical to `ProductImport` except that `name` and `description` hold
whatever `product.name` / `product.description` evaluated to, which is
`undefined` (here `none`) when the upstream field is absent. -/
structure TransformedProduct where
  name : Option String
  description : Option String
  short_description : String
  price : String
  regular_price : String
  sale_price : String
  sku : String
  stock_status : String
  categories : List String
  images : List String
  attributes : List WooCommerceAttribute
  variations : List WooCommerceVariation
deriving DecidableEq

/-- The body of the `products.map((product) => ({...}))` callback in
`transformWooCommerceProducts`, field by field. -/
def transformOne (product : PublicWooCommerceProduct) : TransformedProduct :=
  { name := product.name
  , description := product.description
  , short_description := jsOrStr product.short_description ""
  , price := jsOrStr (product.prices.map WooCommercePrice.price) "0"
  , regular_price := jsOrStr (product.prices.map WooCommercePrice.regular_price) "0"
  , sale_price := jsOrStr (product.prices.map WooCommercePrice.sale_price) ""
  , sku := jsOrStr product.sku ""
  , stock_status := if product.is_in_stock = some true then "instock" else "outofstock"
  , categories :=
      match product.categories with
      | none => []
      | some cats => cats.map WooCommerceCategory.name
  , images :=
      match product.images with
      | none => []
      | some imgs => (imgs.map (fun img => jsOrStr img.src "")).filter (fun s => s != "")
  , attributes := product.attributes.getD []
  , variations := product.variations.getD [] }

/-- `transformWooCommerceProducts` of `src/blueprint/generator.ts`. -/
def transformWooCommerceProducts (products : List PublicWooCommerceProduct) :
    List TransformedProduct :=
  products.map transformOne

/-!
## PHP string escaping (`escapePHP`)

`escapePHP` is `str.replace(/'/g, "\\'")`: every single quote is replaced by
a backslash followed by a quote; all other characters are untouched.
-/

/-- `escapePHP` on the character list of a string: each `'` becomes `\'`. -/
def escapePHPList : List Char → List Char
  | [] => []
  | c :: cs => if c = '\'' then '\\' :: '\'' :: escapePHPList cs else c :: escapePHPList cs

/-- `escapePHP` of `src/blueprint/generator.ts`. -/
def escapePHP (s : String) : String :=
  String.mk (escapePHPList s.data)

/-- Undoing the quote-escaping: the left-to-right global replacement of each
`\'` pair by a plain `'` (the inverse transformation named by the spec's
round-trip property).  This is a specification-side definition, not a source
function. -/
def unescapeQuotes : List Char → List Char
  | [] => []
  | [c] => [c]
  | c :: d :: cs =>
      if c = '\\' ∧ d = '\'' then '\'' :: unescapeQuotes cs
      else c :: unescapeQuotes (d :: cs)

/-- Undoing the quote-escaping on a string. -/
def unescapePHP (s : String) : String :=
  String.mk (unescapeQuotes s.data)

/-- Scanning left to right, every single quote is consumed as the second half
of a `\'` pair: i.e. every quote in the text is escaped.  A
specification-side check for the property "escapes every single quote". -/
def quotesEscaped : List Char → Bool
  | [] => true
  | [c] => c != '\''
  | c :: d :: cs =>
      if c = '\\' ∧ d = '\'' then quotesEscaped cs
      else if c = '\'' then false
      else quotesEscaped (d :: cs)

/-- Verbatim text of the corresponding template literal in the generator source. -/
def importScriptHead : String :=
  "<?php
// Ensure WordPress is loaded
if (!defined('ABSPATH')) \x7b
    // Try to load WordPress - this handles different environments
    if (file_exists('/wordpress/wp-load.php')) \x7b
        require_once('/wordpress/wp-load.php');
    \x7d elseif (file_exists(dirname(__FILE__) . '/../../wp-load.php')) \x7b
        require_once(dirname(__FILE__) . '/../../wp-load.php');
    \x7d elseif (file_exists(dirname(__FILE__) . '/../../../wp-load.php')) \x7b
        require_once(dirname(__FILE__) . '/../../../wp-load.php');
    \x7d else \x7b
        error_log('Could not find wp-load.php');
        exit(1);
    \x7d
\x7d

// Wait for WooCommerce to be fully loaded
if (!class_exists('WC_Product')) \x7b
    error_log('WooCommerce is not active, skipping product import');
    exit(0);
\x7d

// Include WordPress media functions
require_once(ABSPATH . 'wp-admin/includes/media.php');
require_once(ABSPATH . 'wp-admin/includes/file.php');
require_once(ABSPATH . 'wp-admin/includes/image.php');

// Function to download and attach image to product
function attach_product_image($image_url, $product_id, $set_as_featured = true) \x7b
    if (empty($image_url)) \x7b
        return false;
    \x7d

    // Download image from URL
    $tmp = download_url($image_url);

    if (is_wp_error($tmp)) \x7b
        error_log('Failed to download image: ' . $tmp->get_error_message());
        return false;
    \x7d

    // Get the filename from the URL
    $file_array = array();
    $file_array['name'] = basename($image_url);
    $file_array['tmp_name'] = $tmp;

    // If the URL doesn't have a proper extension, try to determine it
    if (!preg_match('/\\.(jpg|jpeg|png|gif|webp)$/i', $file_array['name'])) \x7b
        $file_info = wp_check_filetype_and_ext($tmp, $file_array['name']);
        if ($file_info['ext']) \x7b
            $file_array['name'] = 'product-image-' . $product_id . '.' . $file_info['ext'];
        \x7d
    \x7d

    // Upload the image
    $attachment_id = media_handle_sideload($file_array, $product_id);

    // Check for errors
    if (is_wp_error($attachment_id)) \x7b
        @unlink($file_array['tmp_name']);
        error_log('Failed to create attachment: ' . $attachment_id->get_error_message());
        return false;
    \x7d

    // Set as featured image if requested
    if ($set_as_featured) \x7b
        set_post_thumbnail($product_id, $attachment_id);
    \x7d

    return $attachment_id;
\x7d

$products_data = array(
"

/-- Verbatim text of the corresponding template literal in the generator source. -/
def importScriptTail : String :=
  "
);

$imported_count = 0;
$images_imported = 0;

foreach ($products_data as $product_data) \x7b
    try \x7b
        $product = new WC_Product_Simple();

        $product->set_name($product_data['name']);
        $product->set_description($product_data['description']);
        $product->set_short_description($product_data['short_description']);
        $product->set_regular_price($product_data['regular_price']);

        if (!empty($product_data['sale_price'])) \x7b
            $product->set_sale_price($product_data['sale_price']);
        \x7d

        if (!empty($product_data['sku'])) \x7b
            $product->set_sku($product_data['sku']);
        \x7d

        $product->set_stock_status($product_data['stock_status']);

        // Set categories
        if (!empty($product_data['categories'])) \x7b
            $category_ids = array();
            foreach ($product_data['categories'] as $category_name) \x7b
                $term = get_term_by('name', $category_name, 'product_cat');
                if (!$term) \x7b
                    $term = wp_insert_term($category_name, 'product_cat');
                    if (!is_wp_error($term)) \x7b
                        $category_ids[] = $term['term_id'];
                    \x7d
                \x7d else \x7b
                    $category_ids[] = $term->term_id;
                \x7d
            \x7d
            $product->set_category_ids($category_ids);
        \x7d

        // Save the product first to get the ID
        $product_id = $product->save();
        if ($product_id) \x7b
            $imported_count++;

            // Import images
            if (!empty($product_data['images'])) \x7b
                $gallery_ids = array();
                $is_first = true;

                foreach ($product_data['images'] as $image_url) \x7b
                    if (empty($image_url)) continue;

                    // Set first image as featured, others as gallery
                    $attachment_id = attach_product_image($image_url, $product_id, $is_first);

                    if ($attachment_id && !$is_first) \x7b
                        $gallery_ids[] = $attachment_id;
                    \x7d

                    if ($attachment_id) \x7b
                        $images_imported++;
                    \x7d

                    $is_first = false;

                    // Limit to 5 images per product to avoid timeout
                    if (count($gallery_ids) >= 4) \x7b
                        break;
                    \x7d
                \x7d

                // Set gallery images
                if (!empty($gallery_ids)) \x7b
                    $product = wc_get_product($product_id);
                    $product->set_gallery_image_ids($gallery_ids);
                    $product->save();
                \x7d
            \x7d
        \x7d
    \x7d catch (Exception $e) \x7b
        error_log('Failed to import product: ' . $e->getMessage());
    \x7d
\x7d

echo \"Successfully imported $imported_count products with $images_imported images!\";
?>"

/-- Verbatim text of the corresponding template literal in the generator source. -/
def rewriteScript : String :=
  "<?php
/* Use pretty permalinks */
add_action( 'after_setup_theme', function() \x7b
    global $wp_rewrite;
    $wp_rewrite->set_permalink_structure('/%postname%/');
    $wp_rewrite->flush_rules();
\x7d );"

/-- Verbatim text of the corresponding template literal in the generator source. -/
def debugConfigScript : String :=
  "<?php
/**
 * Debug configuration for development
 * Using mu-plugin to ensure these are set after wp-config.php
 */

// Only define constants if they haven't been defined already
if (!defined('WP_DEBUG')) \x7b
    define('WP_DEBUG', true);
\x7d

if (!defined('WP_DEBUG_LOG')) \x7b
    define('WP_DEBUG_LOG', true);
\x7d

if (!defined('WP_DEBUG_DISPLAY')) \x7b
    define('WP_DEBUG_DISPLAY', false);
\x7d

if (!defined('SCRIPT_DEBUG')) \x7b
    define('SCRIPT_DEBUG', true);
\x7d

if (!defined('WP_ENVIRONMENT_TYPE')) \x7b
    define('WP_ENVIRONMENT_TYPE', 'development');
\x7d

// Additional debug helpers
if (WP_DEBUG) \x7b
    // Ensure error reporting is enabled
    error_reporting(E_ALL);
    ini_set('display_errors', 0);
    ini_set('log_errors', 1);

    // Set error log location if not already set
    if (!ini_get('error_log')) \x7b
        ini_set('error_log', WP_CONTENT_DIR . '/debug.log');
    \x7d
\x7d
"

/-- Verbatim text of the corresponding template literal in the generator source. -/
def importRunCode : String :=
  "<?php require_once(ABSPATH . 'wp-content/mu-plugins/import-products.php'); ?>"

/-- Verbatim text of the corresponding template literal in the generator source. -/
def importUnlinkCode : String :=
  "<?php unlink(ABSPATH . 'wp-content/mu-plugins/import-products.php'); ?>"

/-- Verbatim text of the corresponding template literal in the generator source. -/
def sampleDataScript : String :=
  "<?php
// This script creates sample WooCommerce products without requiring WXR import
// It runs after WooCommerce is activated and ready

// Ensure WooCommerce is active
if (!class_exists('WC_Product')) \x7b
    echo 'WooCommerce is not active. Skipping product creation.';
    exit(0);
\x7d

// Load required WordPress functions for media handling
require_once(ABSPATH . 'wp-admin/includes/media.php');
require_once(ABSPATH . 'wp-admin/includes/file.php');
require_once(ABSPATH . 'wp-admin/includes/image.php');

// Helper function to download and attach image to product
function attach_product_thumbnail($image_url, $product_id, $filename = '') \x7b
    if (empty($image_url)) \x7b
        return false;
    \x7d

    // Download the image
    $tmp = download_url($image_url);
    if (is_wp_error($tmp)) \x7b
        return false;
    \x7d

    // Set up file array
    $file_array = array(
        'name' => $filename ?: basename($image_url),
        'tmp_name' => $tmp
    );

    // If filename doesn't have an extension, add one based on mime type
    if (!preg_match('/.(jpg|jpeg|png|gif|webp)$/i', $file_array['name'])) \x7b
        $file_array['name'] = $file_array['name'] . '.jpg';
    \x7d

    // Upload the image and attach it to the product
    $attachment_id = media_handle_sideload($file_array, $product_id);

    // Clean up temp file
    @unlink($tmp);

    if (is_wp_error($attachment_id)) \x7b
        return false;
    \x7d

    // Set as product thumbnail
    set_post_thumbnail($product_id, $attachment_id);

    return $attachment_id;
\x7d

// Sample product data
$sample_products = array(
    array(
        'name' => 'Premium Quality T-Shirt',
        'description' => 'This premium quality t-shirt is made from 100% organic cotton. Comfortable, durable, and stylish.',
        'short_description' => 'Comfortable organic cotton t-shirt',
        'regular_price' => '29.99',
        'sale_price' => '24.99',
        'sku' => 'TSHIRT-001',
        'stock_status' => 'instock',
        'categories' => array('Clothing', 'T-Shirts'),
        'image_url' => 'https://images.unsplash.com/photo-1521572163474-6864f9cf17ab?w=800',
        'image_name' => 'premium-tshirt.jpg'
    ),
    array(
        'name' => 'Wireless Bluetooth Headphones',
        'description' => 'Experience crystal-clear audio with these premium wireless Bluetooth headphones. Features noise cancellation and 30-hour battery life.',
        'short_description' => 'Premium wireless headphones with noise cancellation',
        'regular_price' => '149.99',
        'sale_price' => '119.99',
        'sku' => 'HEADPHONES-001',
        'stock_status' => 'instock',
        'categories' => array('Electronics', 'Audio'),
        'image_url' => 'https://images.unsplash.com/photo-1505740420928-5e560c06d30e?w=800',
        'image_name' => 'wireless-headphones.jpg'
    ),
    array(
        'name' => 'Organic Coffee Beans - 1kg',
        'description' => 'Premium organic coffee beans sourced from sustainable farms. Medium roast with notes of chocolate and caramel.',
        'short_description' => 'Premium organic coffee beans',
        'regular_price' => '34.99',
        'sale_price' => '',
        'sku' => 'COFFEE-001',
        'stock_status' => 'instock',
        'categories' => array('Food & Beverage', 'Coffee'),
        'image_url' => 'https://images.unsplash.com/photo-1559056199-641a0ac8b55e?w=800',
        'image_name' => 'organic-coffee-beans.jpg'
    ),
    array(
        'name' => 'Yoga Mat - Extra Thick',
        'description' => 'Professional-grade yoga mat with extra thickness for maximum comfort. Non-slip surface and eco-friendly materials.',
        'short_description' => 'Extra thick professional yoga mat',
        'regular_price' => '49.99',
        'sale_price' => '39.99',
        'sku' => 'YOGA-MAT-001',
        'stock_status' => 'instock',
        'categories' => array('Sports & Fitness', 'Yoga'),
        'image_url' => 'https://images.unsplash.com/photo-1601925260368-ae2f83cf8b7f?w=800',
        'image_name' => 'yoga-mat.jpg'
    ),
    array(
        'name' => 'Stainless Steel Water Bottle',
        'description' => 'Keep your drinks cold for 24 hours or hot for 12 hours with this premium stainless steel water bottle.',
        'short_description' => 'Insulated stainless steel water bottle',
        'regular_price' => '24.99',
        'sale_price' => '',
        'sku' => 'BOTTLE-001',
        'stock_status' => 'instock',
        'categories' => array('Home & Kitchen', 'Drinkware'),
        'image_url' => 'https://images.unsplash.com/photo-1602143407151-7111542de6e8?w=800',
        'image_name' => 'water-bottle.jpg'
    ),
    array(
        'name' => 'Leather Wallet - RFID Protected',
        'description' => 'Genuine leather wallet with RFID protection. Multiple card slots and bill compartments.',
        'short_description' => 'RFID protected leather wallet',
        'regular_price' => '59.99',
        'sale_price' => '49.99',
        'sku' => 'WALLET-001',
        'stock_status' => 'instock',
        'categories' => array('Accessories', 'Wallets'),
        'image_url' => 'https://images.unsplash.com/photo-1627123424574-724758594e93?w=800',
        'image_name' => 'leather-wallet.jpg'
    )
);

// Create product categories first
$default_categories = array(
    'Clothing' => 'Fashion and apparel',
    'Electronics' => 'Electronic devices and accessories',
    'Food & Beverage' => 'Food and drink products',
    'Sports & Fitness' => 'Sports equipment and fitness gear',
    'Home & Kitchen' => 'Home and kitchen essentials',
    'Accessories' => 'Fashion and tech accessories',
    'T-Shirts' => 'Comfortable t-shirts',
    'Audio' => 'Audio equipment',
    'Coffee' => 'Coffee products',
    'Yoga' => 'Yoga equipment',
    'Drinkware' => 'Bottles and cups',
    'Wallets' => 'Wallets and cardholders'
);

foreach ($default_categories as $name => $description) \x7b
    if (!term_exists($name, 'product_cat')) \x7b
        wp_insert_term($name, 'product_cat', array(
            'description' => $description
        ));
    \x7d
\x7d

$created_count = 0;
$failed_count = 0;
$images_attached = 0;

foreach ($sample_products as $product_data) \x7b
    try \x7b
        // Create product
        $product = new WC_Product_Simple();

        $product->set_name($product_data['name']);
        $product->set_description($product_data['description']);
        $product->set_short_description($product_data['short_description']);
        $product->set_regular_price($product_data['regular_price']);

        if (!empty($product_data['sale_price'])) \x7b
            $product->set_sale_price($product_data['sale_price']);
        \x7d

        $product->set_sku($product_data['sku']);
        $product->set_stock_status($product_data['stock_status']);
        $product->set_manage_stock(false);
        $product->set_status('publish');

        // Set categories
        $category_ids = array();
        foreach ($product_data['categories'] as $category_name) \x7b
            $term = get_term_by('name', $category_name, 'product_cat');
            if (!$term) \x7b
                $term_data = wp_insert_term($category_name, 'product_cat');
                if (!is_wp_error($term_data)) \x7b
                    $category_ids[] = $term_data['term_id'];
                \x7d
            \x7d else \x7b
                $category_ids[] = $term->term_id;
            \x7d
        \x7d
        $product->set_category_ids($category_ids);

        // Save product first to get ID
        $product_id = $product->save();

        if ($product_id) \x7b
            $created_count++;

            // Download and attach the image
            if (!empty($product_data['image_url'])) \x7b
                $attachment_id = attach_product_thumbnail(
                    $product_data['image_url'],
                    $product_id,
                    $product_data['image_name']
                );

                if ($attachment_id) \x7b
                    $images_attached++;

                    // Also set it as the product image in WooCommerce
                    $product = wc_get_product($product_id);
                    $product->set_image_id($attachment_id);
                    $product->save();
                \x7d
            \x7d
        \x7d

    \x7d catch (Exception $e) \x7b
        $failed_count++;
        error_log('Failed to create product: ' . $e->getMessage());
    \x7d
\x7d

echo \"Sample product import completed. Created $created_count products with $images_attached images attached.\";

if ($failed_count > 0) \x7b
    echo \" Failed to create $failed_count products.\";
\x7d

// Flush rewrite rules to ensure product permalinks work
flush_rewrite_rules();
?>"

/-- Verbatim text of the corresponding template literal in the generator source. -/
def playgroundHelpersScript : String :=
  "<?php
/**
 * WordPress Playground Development Helpers
 */

// Show admin bar for all users
add_filter('show_admin_bar', '__return_true');

// Disable update checks to improve performance
add_filter('automatic_updater_disabled', '__return_true');
remove_action('init', 'wp_schedule_update_checks');

// Add development notice
add_action('admin_notices', function() \x7b
    echo '<div class=\"notice notice-info\"><p>🎮 Running in WordPress Playground with WooCommerce defaults</p></div>';
\x7d);

// Log all errors to debug.log
if (WP_DEBUG_LOG) \x7b
    ini_set('log_errors', 1);
    ini_set('error_log', WP_CONTENT_DIR . '/debug.log');
\x7d
"

/-!
## The generated product-import helper script

`generateProductImportScript` interpolates one PHP `array(...)` literal per
product (each user-controlled field passed through `escapePHP`) between a
fixed header (ending in `$products_data = array(\n`) and a fixed footer.
`importScriptHead` / `importScriptTail` above are those fixed parts, verbatim.
-/

/-- The PHP `array(...)` literal built for one product by the
`products.map((product) => ...)` callback in `generateProductImportScript`. -/
def productPhpEntry (product : ProductImport) : String :=
  "array(\n        'name' => '" ++ escapePHP product.name
  ++ "',\n        'description' => '" ++ escapePHP product.description
  ++ "',\n        'short_description' => '" ++ escapePHP product.short_description
  ++ "',\n        'regular_price' => '" ++ escapePHP product.regular_price
  ++ "',\n        'sale_price' => '" ++ escapePHP product.sale_price
  ++ "',\n        'sku' => '" ++ escapePHP product.sku
  ++ "',\n        'stock_status' => '" ++ escapePHP product.stock_status
  ++ "',\n        'categories' => array("
  ++ String.intercalate ", " (product.categories.map (fun cat => "'" ++ escapePHP cat ++ "'"))
  ++ "),\n        'images' => array("
  ++ String.intercalate ", " (product.images.map (fun img => "'" ++ escapePHP img ++ "'"))
  ++ ")\n      )"

/-- `generateProductImportScript` of `src/blueprint/generator.ts`: the fixed
header, the product entries joined with `",\n"`, and the fixed footer. -/
def generateProductImportScript (products : List ProductImport) : String :=
  importScriptHead
  ++ String.intercalate ",\n" (products.map productPhpEntry)
  ++ importScriptTail

/-!
## Blueprint steps and documents

The repository's `src/blueprint/types.ts` module is not among the source
files (only its importers are), so the step type is reconstructed from its
uses in the generator and the merger: each variant below carries exactly the
fields the generator writes for that step tag (`installPlugin` carries the
two fields of its `pluginZipFile` resource descriptor).  The merger treats
steps opaquely, so no further variants are needed.
-/

/-- A value of a site option: a string, an integer, a boolean, or a nested
object of such values (the shapes occurring in the generator's
`setSiteOptions` literal and, opaquely, in merged documents). -/
inductive OptionValue where
  | str (s : String)
  | num (n : Int)
  | boolVal (b : Bool)
  | obj (fields : List (String × OptionValue))

/-- A blueprint step, as used by the generator and the merger. -/
inductive BlueprintStep where
  | installPlugin (resource : String) (slug : String)
  | activatePlugin (pluginPath : String)
  | mkdir (path : String)
  | writeFile (path : String) (data : String)
  | setSiteOptions (options : List (String × OptionValue))
  | runPHP (code : String)

/-- The `preferredVersions` record of a blueprint document.  Fields are
optional because a user-supplied override document may carry only one of
them; the generator always sets both. -/
structure PreferredVersions where
  php : Option String
  wp : Option String
deriving DecidableEq

/-- The blueprint configuration document.  All fields are optional in the
TypeScript `Blueprint` type (the merger guards every field with a presence
or truthiness check).  `schema` is the `$schema` field.  Plugin and theme
reference lists are opaque resource descriptors to both the generator and
the merger, modelled as strings. -/
structure Blueprint where
  schema : Option String
  landingPage : Option String
  login : Option Bool
  preferredVersions : Option PreferredVersions
  phpExtensionBundles : Option (List String)
  features : Option (List (String × Bool))
  plugins : Option (List String)
  themes : Option (List String)
  siteOptions : Option (List (String × OptionValue))
  constants : Option (List (String × OptionValue))
  steps : Option (List BlueprintStep)

/-- `BlueprintGeneratorOptions` of `src/blueprint/generator.ts`: every field
optional, defaulted inside the generator by destructuring. -/
structure BlueprintGeneratorOptions where
  siteName : Option String := none
  products : Option (List ProductImport) := none
  landingPage : Option String := none
  php : Option String := none
  wp : Option String := none
  additionalPlugins : Option (List String) := none
  additionalSteps : Option (List BlueprintStep) := none

/-- The empty options object: `generateWooCommerceBlueprint({})`. -/
def emptyGeneratorOptions : BlueprintGeneratorOptions := {}

/-- The `options` literal of the generator's `setSiteOptions` step, verbatim
(in the source it is an inline object literal; `siteName` lands under
`blogname`). -/
def wooCommerceSiteOptions (siteName : String) : List (String × OptionValue) :=
  [ ("blogname", OptionValue.str siteName)
  , ("woocommerce_store_city", OptionValue.str "New York")
  , ("woocommerce_store_address", OptionValue.str "123 Main St")
  , ("woocommerce_store_postcode", OptionValue.str "10001")
  , ("woocommerce_default_country", OptionValue.str "US:NY")
  , ("woocommerce_onboarding_profile", OptionValue.obj [("skipped", OptionValue.boolVal true)])
  , ("woocommerce_currency", OptionValue.str "USD")
  , ("woocommerce_weight_unit", OptionValue.str "lbs")
  , ("woocommerce_dimension_unit", OptionValue.str "in")
  , ("woocommerce_allow_tracking", OptionValue.str "no")
  , ("woocommerce_cheque_settings", OptionValue.obj [("enabled", OptionValue.str "yes")])
  , ("woocommerce_cod_settings", OptionValue.obj [("enabled", OptionValue.str "yes")])
  , ("woocommerce_bacs_settings", OptionValue.obj [("enabled", OptionValue.str "yes")])
  , ("woocommerce_calc_taxes", OptionValue.str "yes")
  , ("woocommerce_enable_coupons", OptionValue.str "yes")
  , ("woocommerce_enable_reviews", OptionValue.str "yes")
  , ("woocommerce_enable_review_rating", OptionValue.str "yes")
  , ("woocommerce_manage_stock", OptionValue.str "yes")
  , ("woocommerce_notify_low_stock", OptionValue.str "yes")
  , ("woocommerce_notify_no_stock", OptionValue.str "yes")
  , ("woocommerce_stock_email_recipient", OptionValue.str "admin@example.com")
  , ("woocommerce_notify_low_stock_amount", OptionValue.num 2)
  , ("woocommerce_notify_no_stock_amount", OptionValue.num 0)
  , ("woocommerce_enable_guest_checkout", OptionValue.str "yes")
  , ("woocommerce_enable_checkout_login_reminder", OptionValue.str "yes")
  , ("woocommerce_enable_signup_and_login_from_checkout", OptionValue.str "yes")
  , ("woocommerce_enable_myaccount_registration", OptionValue.str "yes")
  , ("woocommerce_registration_generate_username", OptionValue.str "yes")
  , ("woocommerce_registration_generate_password", OptionValue.str "yes") ]

/-- The `steps` array of the generator's initial document literal: the two
fixed plugin installs (woocommerce, query-monitor), one install per
additional plugin (caller order preserved), the two fixed activations, one
activation per additional plugin (same order, path derived as
`slug/slug.php`), the mu-plugins `mkdir`, the permalink-rewrite `writeFile`,
the `setSiteOptions` step, and the debug-config `writeFile`. -/
def wcBaseSteps (siteName : String) (additionalPlugins : List String) : List BlueprintStep :=
  [ BlueprintStep.installPlugin "wordpress.org/plugins" "woocommerce"
  , BlueprintStep.installPlugin "wordpress.org/plugins" "query-monitor" ]
  ++ additionalPlugins.map (fun plugin => BlueprintStep.installPlugin "wordpress.org/plugins" plugin)
  ++ [ BlueprintStep.activatePlugin "woocommerce/woocommerce.php"
     , BlueprintStep.activatePlugin "query-monitor/query-monitor.php" ]
  ++ additionalPlugins.map (fun plugin => BlueprintStep.activatePlugin (plugin ++ "/" ++ plugin ++ ".php"))
  ++ [ BlueprintStep.mkdir "/wp-content/mu-plugins"
     , BlueprintStep.writeFile "/wp-content/mu-plugins/rewrite.php" rewriteScript
     , BlueprintStep.setSiteOptions (wooCommerceSiteOptions siteName)
     , BlueprintStep.writeFile "/wp-content/mu-plugins/debug-config.php" debugConfigScript ]

/-- The generator's product branch: when `products` is non-empty it pushes
the transient-import-helper block — write the helper file, run it, unlink
it — and otherwise the single default-sample-data `runPHP` step. -/
def wcImportOrSampleSteps (products : List ProductImport) : List BlueprintStep :=
  if products.length > 0 then
    [ BlueprintStep.writeFile "/wp-content/mu-plugins/import-products.php"
        (generateProductImportScript products)
    , BlueprintStep.runPHP importRunCode
    , BlueprintStep.runPHP importUnlinkCode ]
  else
    [ BlueprintStep.runPHP sampleDataScript ]

/-- The final developer-helper `writeFile` step (the playground-helpers
mu-plugin), always pushed last by the generator. -/
def wcPlaygroundHelpersStep : BlueprintStep :=
  BlueprintStep.writeFile "/wp-content/mu-plugins/playground-helpers.php" playgroundHelpersScript

/-- `generateWooCommerceBlueprint` of `src/blueprint/generator.ts`.

The source builds the document literal with `wcBaseSteps` as its `steps`
array, then appends by mutation: the product branch (`wcImportOrSampleSteps`),
the caller's `additionalSteps` verbatim (the source's `length > 0` guard
around that push is extensionally the unguarded append), and finally the
playground-helpers `writeFile`.  The Lean definition computes the same final
document in one expression. -/
def generateWooCommerceBlueprint (options : BlueprintGeneratorOptions) : Blueprint :=
  let siteName := options.siteName.getD "My WooCommerce Store"
  let products := options.products.getD []
  let landingPage := options.landingPage.getD "/wp-admin/"
  let php := options.php.getD "8.0"
  let wp := options.wp.getD "latest"
  let additionalPlugins := options.additionalPlugins.getD []
  let additionalSteps := options.additionalSteps.getD []
  { schema := some "https://playground.wordpress.net/blueprint-schema.json"
  , landingPage := some landingPage
  , login := some true
  , preferredVersions := some { php := some php, wp := some wp }
  , phpExtensionBundles := some ["kitchen-sink"]
  , features := some [("networking", true)]
  , plugins := none
  , themes := none
  , siteOptions := none
  , constants := none
  , steps := some (wcBaseSteps siteName additionalPlugins
      ++ wcImportOrSampleSteps products
      ++ additionalSteps
      ++ [wcPlaygroundHelpersStep]) }

/-!
## The blueprint merger (`mergeBlueprints` in `src/cli/index.ts`)
-/

/-- JavaScript object spread `{...a, ...b}` over string-keyed association
lists: `a`'s keys in order, each taking `b`'s value when `b` has the key,
followed by `b`'s keys not present in `a`, in `b`'s order. -/
def spreadMerge {α : Type} (a b : List (String × α)) : List (String × α) :=
  a.map (fun kv => (kv.1, (b.lookup kv.1).getD kv.2))
  ++ b.filter (fun kv => (a.lookup kv.1).isNone)

/-- The in-place dedup of the merger:
`[...base, ...custom].filter((v, i, a) => a.indexOf(v) === i)` — an element is
kept exactly when its position is the first index of its value. -/
def jsDedupFilter (l : List String) : List String :=
  (l.enum.filter (fun p => l.indexOf p.2 == p.1)).map Prod.snd

/-- Specification-side restatement of "deduplicated preserving the first
occurrence of each name": keep the head, drop its later duplicates,
continue.  Compared with the merger's `jsDedupFilter` in the theorems. -/
def dedupKeepFirst : List String → List String
  | [] => []
  | x :: xs => x :: dedupKeepFirst (xs.filter (fun y => y != x))
termination_by l => l.length
decreasing_by
  simp only [List.length_cons]
  exact Nat.lt_succ_of_le (List.length_filter_le _ _)

/-- `mergeBlueprints` of `src/cli/index.ts`.  The source copies the base
(`{...base}`) and then reassigns field by field: `$schema` and `landingPage`
on a truthiness check; `preferredVersions`, `features`, `siteOptions` and
`constants` by object spread when the override carries the field; the
extension bundle list by concatenation plus in-place dedup; `login` on an
`!== undefined` check; `plugins`, `themes` and `steps` by concatenation. -/
def mergeBlueprints (base custom : Blueprint) : Blueprint :=
  { schema := if jsTruthyStr custom.schema then custom.schema else base.schema
  , landingPage := if jsTruthyStr custom.landingPage then custom.landingPage else base.landingPage
  , login :=
      match custom.login with
      | some b => some b
      | none => base.login
  , preferredVersions :=
      match custom.preferredVersions with
      | some cpv =>
          let bpv := base.preferredVersions.getD { php := none, wp := none }
          some { php := (cpv.php.orElse (fun _ => bpv.php))
               , wp := (cpv.wp.orElse (fun _ => bpv.wp)) }
      | none => base.preferredVersions
  , phpExtensionBundles :=
      match custom.phpExtensionBundles with
      | some cb => some (jsDedupFilter ((base.phpExtensionBundles.getD []) ++ cb))
      | none => base.phpExtensionBundles
  , features :=
      match custom.features with
      | some cf => some (spreadMerge (base.features.getD []) cf)
      | none => base.features
  , plugins :=
      match custom.plugins with
      | some cp => some ((base.plugins.getD []) ++ cp)
      | none => base.plugins
  , themes :=
      match custom.themes with
      | some ct => some ((base.themes.getD []) ++ ct)
      | none => base.themes
  , siteOptions :=
      match custom.siteOptions with
      | some cso => some (spreadMerge (base.siteOptions.getD []) cso)
      | none => base.siteOptions
  , constants :=
      match custom.constants with
      | some cc => some (spreadMerge (base.constants.getD []) cc)
      | none => base.constants
  , steps :=
      match custom.steps with
      | some cs => some ((base.steps.getD []) ++ cs)
      | none => base.steps }

/-!
## Concrete example inputs and step discriminators used by the theorems
-/

/-- Accumulator formulation of first-occurrence deduplication: keep an
element exactly when it has not been seen yet. -/
def keepNew (seen : List String) : List String → List String
  | [] => []
  | y :: ys => if y ∈ seen then keepNew seen ys else y :: keepNew (y :: seen) ys

/-- Whether a step is an install-plugin step for the given slug. -/
def isInstallOf (slug : String) : BlueprintStep → Bool
  | BlueprintStep.installPlugin _ s => s == slug
  | _ => false

/-- Whether a step is a file-write step whose path ends in the import-helper
filename `import-products.php`. -/
def isImportHelperWrite : BlueprintStep → Bool
  | BlueprintStep.writeFile p _ => List.isSuffixOf "import-products.php".data p.data
  | _ => false

/-- A concrete remote product that is out of stock and carries no
`short_description`. -/
def remoteOutOfStockProduct : PublicWooCommerceProduct :=
  { name := some "Mug"
  , description := some "A mug"
  , short_description := none
  , sku := none
  , prices := none
  , is_in_stock := some false
  , categories := none
  , images := none
  , attributes := none
  , variations := none }

/-- A concrete remote product record with no `name` and no `description`
property at all. -/
def noNameRemoteProduct : PublicWooCommerceProduct :=
  { name := none
  , description := none
  , short_description := none
  , sku := none
  , prices := none
  , is_in_stock := some false
  , categories := none
  , images := none
  , attributes := none
  , variations := none }

/-- A concrete base document with truthy scalar fields. -/
def scalarBaseBlueprint : Blueprint :=
  { schema := some "https://playground.wordpress.net/blueprint-schema.json"
  , landingPage := some "/wp-admin/"
  , login := some true
  , preferredVersions := none
  , phpExtensionBundles := none
  , features := none
  , plugins := none
  , themes := none
  , siteOptions := none
  , constants := none
  , steps := none }

/-- A concrete override document whose `landingPage` is present but the empty
string, with `schema` present and truthy and `login` present and `false`. -/
def scalarOverrideBlueprint : Blueprint :=
  { schema := some "custom-schema"
  , landingPage := some ""
  , login := some false
  , preferredVersions := none
  , phpExtensionBundles := none
  , features := none
  , plugins := none
  , themes := none
  , siteOptions := none
  , constants := none
  , steps := none }

/-- A concrete base document carrying two site options. -/
def siteOptionsBaseBlueprint : Blueprint :=
  { schema := none
  , landingPage := none
  , login := none
  , preferredVersions := none
  , phpExtensionBundles := none
  , features := none
  , plugins := none
  , themes := none
  , siteOptions := some
      [ ("blogname", OptionValue.str "Base Shop")
      , ("woocommerce_currency", OptionValue.str "USD") ]
  , constants := none
  , steps := none }

/-- A concrete override document overriding one of the base's site options. -/
def siteOptionsOverrideBlueprint : Blueprint :=
  { schema := none
  , landingPage := none
  , login := none
  , preferredVersions := none
  , phpExtensionBundles := none
  , features := none
  , plugins := none
  , themes := none
  , siteOptions := some [("woocommerce_currency", OptionValue.str "EUR")]
  , constants := none
  , steps := none }

/-- A concrete base document carrying the default bundle list. -/
def bundlesBaseBlueprint : Blueprint :=
  { schema := none
  , landingPage := none
  , login := none
  , preferredVersions := none
  , phpExtensionBundles := some ["kitchen-sink"]
  , features := none
  , plugins := none
  , themes := none
  , siteOptions := none
  , constants := none
  , steps := none }

/-- A concrete override document sharing a bundle name with the base. -/
def bundlesOverrideBlueprint : Blueprint :=
  { schema := none
  , landingPage := none
  , login := none
  , preferredVersions := none
  , phpExtensionBundles := some ["kitchen-sink", "light"]
  , features := none
  , plugins := none
  , themes := none
  , siteOptions := none
  , constants := none
  , steps := none }

/-- A concrete one-record product list entry. -/
def sampleProductImport : ProductImport :=
  { name := "Premium T-Shirt"
  , description := "A comfortable shirt"
  , short_description := "Shirt"
  , price := "10.00"
  , regular_price := "10.00"
  , sale_price := ""
  , sku := "TS-1"
  , stock_status := "instock"
  , categories := ["Clothing"]
  , images := []
  , attributes := []
  , variations := [] }

/-- Options that supply one product *and* smuggle the default-sample-data
step in through `additionalSteps`. -/
def sampleInjectionOptions : BlueprintGeneratorOptions :=
  { products := some [sampleProductImport]
  , additionalSteps := some [BlueprintStep.runPHP sampleDataScript] }

/-- Options carrying only a products list: `\x7bproducts\x7d`. -/
def productsOnlyOptions (ps : List ProductImport) : BlueprintGeneratorOptions :=
  { products := some ps }

/-- Concrete options carrying one additional plugin slug. -/
def akismetOptions : BlueprintGeneratorOptions :=
  { additionalPlugins := some ["akismet"] }

/-!
## Lemmas: PHP quote escaping
-/

/-- The escaped form of a string never starts with a bare quote: if the source
string starts with a quote the escaped form starts with the inserted
backslash, and any other first character is kept. -/
theorem escapePHPList_head_ne_quote (l : List Char) :
    (escapePHPList l).head? ≠ some '\'' := by
  cases l with
  | nil => simp [escapePHPList]
  | cons c cs =>
    by_cases hc : c = '\''
    · rw [escapePHPList, if_pos hc]
      simp
    · rw [escapePHPList, if_neg hc]
      simpa using hc

/-- Escaping never produces the empty list from a non-empty list. -/
theorem escapePHPList_eq_nil {l : List Char} (h : escapePHPList l = []) : l = [] := by
  cases l with
  | nil => rfl
  | cons c cs =>
    exfalso
    by_cases hc : c = '\''
    · rw [escapePHPList, if_pos hc] at h
      exact List.cons_ne_nil _ _ h
    · rw [escapePHPList, if_neg hc] at h
      exact List.cons_ne_nil _ _ h

/-- Undoing the quote-escaping recovers the original character list. -/
theorem unescapeQuotes_escapePHPList (l : List Char) :
    unescapeQuotes (escapePHPList l) = l := by
  induction l with
  | nil => rfl
  | cons c cs ih =>
    by_cases hc : c = '\''
    · subst hc
      rw [escapePHPList, if_pos rfl]
      cases hrest : escapePHPList cs with
      | nil =>
        have hnil := escapePHPList_eq_nil hrest
        subst hnil
        simp [unescapeQuotes]
      | cons d ds =>
        rw [unescapeQuotes, if_pos ⟨rfl, rfl⟩, ← hrest, ih]
    · rw [escapePHPList, if_neg hc]
      cases hrest : escapePHPList cs with
      | nil =>
        have hnil := escapePHPList_eq_nil hrest
        subst hnil
        simp [unescapeQuotes, escapePHPList]
      | cons d ds =>
        have hd : d ≠ '\'' := by
          have hh := escapePHPList_head_ne_quote cs
          rw [hrest] at hh
          simpa using hh
        rw [unescapeQuotes, if_neg (by rintro ⟨-, h2⟩; exact hd h2), ← hrest, ih]

/-- Every quote in the escaped form is consumed as part of a `\'` pair. -/
theorem quotesEscaped_escapePHPList (l : List Char) :
    quotesEscaped (escapePHPList l) = true := by
  induction l with
  | nil => rfl
  | cons c cs ih =>
    by_cases hc : c = '\''
    · subst hc
      rw [escapePHPList, if_pos rfl]
      cases hrest : escapePHPList cs with
      | nil =>
        have hnil := escapePHPList_eq_nil hrest
        subst hnil
        simp [quotesEscaped]
      | cons d ds =>
        rw [quotesEscaped, if_pos ⟨rfl, rfl⟩, ← hrest]
        exact ih
    · rw [escapePHPList, if_neg hc]
      cases hrest : escapePHPList cs with
      | nil =>
        simp [quotesEscaped, hc]
      | cons d ds =>
        have hd : d ≠ '\'' := by
          have hh := escapePHPList_head_ne_quote cs
          rw [hrest] at hh
          simpa using hh
        rw [quotesEscaped, if_neg (by rintro ⟨-, h2⟩; exact hd h2), if_neg hc, ← hrest]
        exact ih

/-- C8: `escapePHP` escapes every single quote of its argument (in the escaped
form every quote occurs as the second half of a `\'` pair), and for any
product name containing a single quote, undoing the quote-escaping (replacing
each escaped quote by a plain quote, left to right) recovers the original
name exactly. -/
theorem escapePHP_escapes_and_round_trips (s : String) (_h : '\'' ∈ s.data) :
    quotesEscaped (escapePHP s).data = true ∧ unescapePHP (escapePHP s) = s := by
  constructor
  · exact quotesEscaped_escapePHPList s.data
  · show String.mk (unescapeQuotes (escapePHPList s.data)) = s
    rw [unescapeQuotes_escapePHPList]

/-- Witness for C8 at the concrete name `O'Brien`. -/
theorem escapePHP_escapes_and_round_trips_witness :
    '\'' ∈ "O'Brien".data ∧
      (quotesEscaped (escapePHP "O'Brien").data = true ∧
        unescapePHP (escapePHP "O'Brien") = "O'Brien") :=
  ⟨by decide, escapePHP_escapes_and_round_trips "O'Brien" (by decide)⟩

/-!
## Theorems: the product normalizer (claim C2)
-/

/-- C2 (amended): the normalizer returns an equal-length, order-preserving
sequence; `name` and `description` are copied verbatim — in particular an
absent upstream value is passed through as absent, not defaulted to the empty
string; `short_description` defaults to the empty string when absent (or
empty); and `stock_status` is exactly `"instock"` when `is_in_stock` is the
boolean `true` and exactly `"outofstock"` in every other case. -/
theorem transformWooCommerceProducts_spec (products : List PublicWooCommerceProduct) :
    (transformWooCommerceProducts products).length = products.length ∧
    ∀ (i : Nat) (p : PublicWooCommerceProduct), products[i]? = some p →
      ∃ t : TransformedProduct, (transformWooCommerceProducts products)[i]? = some t ∧
        t.name = p.name ∧
        t.description = p.description ∧
        t.short_description = jsOrStr p.short_description "" ∧
        (p.is_in_stock = some true → t.stock_status = "instock") ∧
        (p.is_in_stock ≠ some true → t.stock_status = "outofstock") := by
  constructor
  · simp [transformWooCommerceProducts]
  · intro i p hp
    refine ⟨transformOne p, ?_, rfl, rfl, rfl, ?_, ?_⟩
    · rw [transformWooCommerceProducts, List.getElem?_map, hp]
      rfl
    · intro hs
      simp [transformOne, hs]
    · intro hs
      simp [transformOne, hs]

/-- Witness for C2 at the spec's concrete scenario (`is_in_stock: false`, no
`short_description`): the record normalizes to `stock_status = "outofstock"`
and `short_description = ""`. -/
theorem transformWooCommerceProducts_spec_witness :
    ∃ t, (transformWooCommerceProducts [remoteOutOfStockProduct])[0]? = some t ∧
      t.short_description = "" ∧ t.stock_status = "outofstock" := by
  obtain ⟨t, ht, -, -, hs, -, hout⟩ :=
    (transformWooCommerceProducts_spec [remoteOutOfStockProduct]).2 0 remoteOutOfStockProduct rfl
  exact ⟨t, ht, hs, hout (by decide)⟩

/-- C2 counterexample: for a remote product whose `name` is absent, the
normalizer's output carries the absent value through unchanged — the `name`
of the resulting record is absent (`undefined`), not the empty string the
claim's defaulting clause requires. -/
theorem transform_does_not_default_name :
    (transformWooCommerceProducts [noNameRemoteProduct]).map TransformedProduct.name = [none] ∧
    (transformWooCommerceProducts [noNameRemoteProduct]).map TransformedProduct.name ≠ [some ""] := by
  exact ⟨rfl, by decide⟩

/-!
## Lemmas: association-list lookup under append, value-override map, filter
-/

/-- Lookup distributes over append, preferring the left list. -/
theorem lookup_append_eq {α : Type} (k : String) (l₁ l₂ : List (String × α)) :
    (l₁ ++ l₂).lookup k =
      match l₁.lookup k with
      | some v => some v
      | none => l₂.lookup k := by
  induction l₁ with
  | nil => simp [List.lookup]
  | cons kv l ih =>
    obtain ⟨k₀, v₀⟩ := kv
    cases h : (k == k₀) with
    | true => simp [List.lookup, h]
    | false => simpa [List.lookup, h] using ih

/-- Lookup through a key-preserving, key-determined value override. -/
theorem lookup_map_override {α : Type} (k : String) (a b : List (String × α)) :
    (a.map (fun kv => (kv.1, (b.lookup kv.1).getD kv.2))).lookup k =
      (a.lookup k).map (fun v => (b.lookup k).getD v) := by
  induction a with
  | nil => simp [List.lookup]
  | cons kv l ih =>
    obtain ⟨k₀, v₀⟩ := kv
    cases h : (k == k₀) with
    | true =>
      have hk : k = k₀ := by simpa using h
      subst hk
      simp [List.lookup]
    | false => simpa [List.lookup, h] using ih

/-- Lookup in a list filtered by a predicate on keys only. -/
theorem lookup_filter_keyPred {α : Type} (k : String) (b : List (String × α))
    (p : String → Bool) :
    (b.filter (fun kv => p kv.1)).lookup k = if p k then b.lookup k else none := by
  induction b with
  | nil => simp [List.lookup]
  | cons kv l ih =>
    obtain ⟨k₁, v₁⟩ := kv
    cases h : (k == k₁) with
    | true =>
      have hk : k = k₁ := by simpa using h
      subst hk
      cases hp : p k with
      | true => simp [List.filter_cons, hp, List.lookup]
      | false => simp [List.filter_cons, hp, ih]
    | false =>
      cases hp : p k₁ with
      | true =>
        simp only [List.filter_cons, hp, if_true]
        simpa [List.lookup, h] using ih
      | false =>
        simp only [List.filter_cons, hp, Bool.false_eq_true, if_false]
        rw [ih]
        by_cases hpk : p k
        · simp [hpk, List.lookup, h]
        · simp [hpk]

/-- The JavaScript object spread, through lookup: the override's binding wins
when present, otherwise the base's binding survives. -/
theorem lookup_spreadMerge {α : Type} (a b : List (String × α)) (k : String) :
    (spreadMerge a b).lookup k =
      match b.lookup k with
      | some v => some v
      | none => a.lookup k := by
  rw [spreadMerge, lookup_append_eq, lookup_map_override,
    lookup_filter_keyPred k b (fun key => (a.lookup key).isNone)]
  cases ha : a.lookup k <;> cases hb : b.lookup k <;> simp [ha, hb]

/-!
## Theorems: the blueprint merger's scalar fields (claim C3)
-/

/-- C3 (amended): under `mergeBlueprints`, the `$schema` and `landingPage`
fields take the override's value exactly when it is present *and truthy*
(non-empty) — a present-but-empty override string is ignored and the base
value retained, because the source guards these with `if (custom.field)` —
while `login` takes the override's value whenever it is present, including
`false`, because it alone is guarded with `!== undefined`. -/
theorem mergeBlueprints_scalar_spec (B O : Blueprint) :
    (∀ s : String, O.schema = some s → s ≠ "" → (mergeBlueprints B O).schema = some s) ∧
    ((O.schema = none ∨ O.schema = some "") → (mergeBlueprints B O).schema = B.schema) ∧
    (∀ s : String, O.landingPage = some s → s ≠ "" →
      (mergeBlueprints B O).landingPage = some s) ∧
    ((O.landingPage = none ∨ O.landingPage = some "") →
      (mergeBlueprints B O).landingPage = B.landingPage) ∧
    (∀ b : Bool, O.login = some b → (mergeBlueprints B O).login = some b) ∧
    (O.login = none → (mergeBlueprints B O).login = B.login) := by
  refine ⟨?_, ?_, ?_, ?_, ?_, ?_⟩
  · intro s hs hne
    simp [mergeBlueprints, jsTruthyStr, hs, hne]
  · rintro (hs | hs) <;> simp [mergeBlueprints, jsTruthyStr, hs]
  · intro s hs hne
    simp [mergeBlueprints, jsTruthyStr, hs, hne]
  · rintro (hs | hs) <;> simp [mergeBlueprints, jsTruthyStr, hs]
  · intro b hb
    simp [mergeBlueprints, hb]
  · intro hl
    simp [mergeBlueprints, hl]

/-- C3 counterexample: the override's `landingPage` is present (the empty
string), yet the merged document keeps the base's landing page — the claim's
"override wins whenever present, including falsy present values such as the
empty string" fails on the code. -/
theorem mergeBlueprints_empty_landingPage_ignored :
    scalarOverrideBlueprint.landingPage = some "" ∧
    (mergeBlueprints scalarBaseBlueprint scalarOverrideBlueprint).landingPage = some "/wp-admin/" ∧
    (mergeBlueprints scalarBaseBlueprint scalarOverrideBlueprint).landingPage
      ≠ scalarOverrideBlueprint.landingPage := by
  refine ⟨rfl, rfl, ?_⟩
  decide

/-- Witness for C3 at the two concrete documents: the truthy `schema`
override wins, the empty-string `landingPage` override is ignored, and the
`false` `login` override wins. -/
theorem mergeBlueprints_scalar_spec_witness :
    (mergeBlueprints scalarBaseBlueprint scalarOverrideBlueprint).schema = some "custom-schema" ∧
    (mergeBlueprints scalarBaseBlueprint scalarOverrideBlueprint).landingPage
      = scalarBaseBlueprint.landingPage ∧
    (mergeBlueprints scalarBaseBlueprint scalarOverrideBlueprint).login = some false := by
  obtain ⟨h1, -, -, h4, h5, -⟩ :=
    mergeBlueprints_scalar_spec scalarBaseBlueprint scalarOverrideBlueprint
  exact ⟨h1 "custom-schema" rfl (by decide), h4 (Or.inr rfl), h5 false rfl⟩

/-!
## Theorems: the blueprint merger's `siteOptions` merge (claim C6)
-/

/-- C6: when the override carries `siteOptions`, the merged `siteOptions`
contains every key of the override with the override's value, and every key
of the base not present in the override with the base's value. -/
theorem mergeBlueprints_siteOptions_spec (B O : Blueprint)
    (cso : List (String × OptionValue)) (h : O.siteOptions = some cso) :
    ∃ m : List (String × OptionValue), (mergeBlueprints B O).siteOptions = some m ∧
      (∀ (k : String) (v : OptionValue), cso.lookup k = some v → m.lookup k = some v) ∧
      (∀ (k : String) (v : OptionValue), (B.siteOptions.getD []).lookup k = some v →
        cso.lookup k = none → m.lookup k = some v) := by
  refine ⟨spreadMerge (B.siteOptions.getD []) cso, ?_, ?_, ?_⟩
  · simp [mergeBlueprints, h]
  · intro k v hv
    rw [lookup_spreadMerge, hv]
  · intro k v hv hnone
    rw [lookup_spreadMerge, hnone, hv]

/-- Witness for C6: the overridden currency takes the override's value and
the untouched base key survives with the base's value. -/
theorem mergeBlueprints_siteOptions_spec_witness :
    ∃ m : List (String × OptionValue),
      (mergeBlueprints siteOptionsBaseBlueprint siteOptionsOverrideBlueprint).siteOptions
        = some m ∧
      m.lookup "woocommerce_currency" = some (OptionValue.str "EUR") ∧
      m.lookup "blogname" = some (OptionValue.str "Base Shop") := by
  obtain ⟨m, hm, hover, hbase⟩ :=
    mergeBlueprints_siteOptions_spec siteOptionsBaseBlueprint siteOptionsOverrideBlueprint
      [("woocommerce_currency", OptionValue.str "EUR")] rfl
  exact ⟨m, hm, hover _ _ rfl, hbase _ _ rfl rfl⟩

/-!
## Lemmas: first-occurrence deduplication (claim C7)
-/

/-- `keepNew` depends on the seen accumulator only through membership. -/
theorem keepNew_congr (l : List String) (s₁ s₂ : List String)
    (h : ∀ z, z ∈ s₁ ↔ z ∈ s₂) : keepNew s₁ l = keepNew s₂ l := by
  induction l generalizing s₁ s₂ with
  | nil => rfl
  | cons y ys ih =>
    by_cases hy : y ∈ s₁
    · rw [keepNew, keepNew, if_pos hy, if_pos ((h y).mp hy)]
      exact ih s₁ s₂ h
    · rw [keepNew, keepNew, if_neg hy, if_neg (fun hc => hy ((h y).mpr hc))]
      exact congrArg (y :: ·) (ih (y :: s₁) (y :: s₂) (by intro z; simp [h z]))

/-- `keepNew` is `dedupKeepFirst` after discarding already-seen elements. -/
theorem keepNew_eq_dedupKeepFirst_filter (l : List String) : ∀ seen : List String,
    keepNew seen l = dedupKeepFirst (l.filter (fun z => decide (z ∉ seen))) := by
  induction l with
  | nil =>
    intro seen
    simp [keepNew, dedupKeepFirst]
  | cons y ys ih =>
    intro seen
    by_cases hy : y ∈ seen
    · rw [keepNew, if_pos hy, List.filter_cons, if_neg (by simpa using hy)]
      exact ih seen
    · rw [keepNew, if_neg hy, List.filter_cons, if_pos (by simpa using hy), dedupKeepFirst,
        List.filter_filter]
      have hpred : ∀ x ∈ ys,
          ((x != y) && decide (x ∉ seen)) = decide (x ∉ y :: seen) := by
        intro x _
        by_cases hxy : x = y
        · subst hxy
          simp
        · by_cases hxs : x ∈ seen <;> simp [hxy, hxs]
      rw [List.filter_congr hpred, ih (y :: seen)]

/-- `dedupKeepFirst` is `keepNew` started from the empty accumulator. -/
theorem dedupKeepFirst_eq_keepNew_nil (l : List String) :
    dedupKeepFirst l = keepNew [] l := by
  rw [keepNew_eq_dedupKeepFirst_filter]
  congr 1
  exact (List.filter_eq_self.mpr (by intro a _; simp)).symm

/-- The merger's `filter((v, i, a) => a.indexOf(v) === i)` dedup, generalized
over an already-scanned prefix, is the accumulator dedup with that prefix as
the seen set. -/
theorem jsDedupFilter_enumFrom (l : List String) : ∀ pre : List String,
    ((List.enumFrom pre.length l).filter
        (fun p => (pre ++ l).indexOf p.2 == p.1)).map Prod.snd = keepNew pre l := by
  induction l with
  | nil => intro pre; rfl
  | cons y ys ih =>
    intro pre
    have hre : pre ++ y :: ys = (pre ++ [y]) ++ ys := by simp
    have hlen : (pre ++ [y]).length = pre.length + 1 := by simp
    by_cases hy : y ∈ pre
    · have hidx : (pre ++ y :: ys).indexOf y = pre.indexOf y :=
        List.indexOf_append_of_mem hy
      have hcond : ((pre ++ y :: ys).indexOf y == pre.length) = false := by
        have hlt : pre.indexOf y < pre.length := List.indexOf_lt_length.mpr hy
        simp only [hidx, beq_eq_false_iff_ne, ne_eq]
        omega
      rw [List.enumFrom_cons, List.filter_cons]
      simp only [hcond, Bool.false_eq_true, if_false]
      rw [keepNew, if_pos hy]
      calc ((List.enumFrom (pre.length + 1) ys).filter
              (fun p => (pre ++ y :: ys).indexOf p.2 == p.1)).map Prod.snd
          = ((List.enumFrom (pre ++ [y]).length ys).filter
              (fun p => ((pre ++ [y]) ++ ys).indexOf p.2 == p.1)).map Prod.snd := by
            rw [hlen, ← hre]
        _ = keepNew (pre ++ [y]) ys := ih (pre ++ [y])
        _ = keepNew pre ys := by
            refine keepNew_congr ys (pre ++ [y]) pre (fun z => ?_)
            simp only [List.mem_append, List.mem_singleton]
            constructor
            · rintro (hz | rfl)
              · exact hz
              · exact hy
            · exact Or.inl
    · have hidx : (pre ++ y :: ys).indexOf y = pre.length := by
        rw [List.indexOf_append_of_not_mem hy, List.indexOf_cons_self]
        omega
      have hcond : ((pre ++ y :: ys).indexOf y == pre.length) = true := by
        simp [hidx]
      rw [List.enumFrom_cons, List.filter_cons]
      simp only [hcond, if_true]
      rw [List.map_cons, keepNew, if_neg hy]
      refine congrArg (y :: ·) ?_
      calc ((List.enumFrom (pre.length + 1) ys).filter
              (fun p => (pre ++ y :: ys).indexOf p.2 == p.1)).map Prod.snd
          = ((List.enumFrom (pre ++ [y]).length ys).filter
              (fun p => ((pre ++ [y]) ++ ys).indexOf p.2 == p.1)).map Prod.snd := by
            rw [hlen, ← hre]
        _ = keepNew (pre ++ [y]) ys := ih (pre ++ [y])
        _ = keepNew (y :: pre) ys := by
            refine keepNew_congr ys (pre ++ [y]) (y :: pre) (fun z => ?_)
            simp [List.mem_append, or_comm]

/-- The merger's in-place dedup computes exactly the first-occurrence dedup. -/
theorem jsDedupFilter_eq_dedupKeepFirst (l : List String) :
    jsDedupFilter l = dedupKeepFirst l := by
  have h := jsDedupFilter_enumFrom l []
  simp only [List.length_nil, List.nil_append] at h
  rw [jsDedupFilter, dedupKeepFirst_eq_keepNew_nil, ← h]
  rfl

/-- Elements of the first-occurrence dedup come from the original list. -/
theorem mem_of_mem_dedupKeepFirst :
    ∀ (l : List String) (a : String), a ∈ dedupKeepFirst l → a ∈ l := by
  intro l
  induction l using dedupKeepFirst.induct with
  | case1 =>
    intro a ha
    rw [dedupKeepFirst] at ha
    exact ha
  | case2 x xs ih =>
    intro a ha
    rw [dedupKeepFirst] at ha
    rcases List.mem_cons.mp ha with rfl | ha
    · exact List.mem_cons_self a xs
    · exact List.mem_cons_of_mem x (List.mem_of_mem_filter (ih a ha))

/-- The first-occurrence dedup contains no duplicate entries. -/
theorem nodup_dedupKeepFirst (l : List String) : (dedupKeepFirst l).Nodup := by
  induction l using dedupKeepFirst.induct with
  | case1 => simp [dedupKeepFirst]
  | case2 x xs ih =>
    rw [dedupKeepFirst, List.nodup_cons]
    refine ⟨fun hx => ?_, ih⟩
    have hmem := mem_of_mem_dedupKeepFirst _ _ hx
    have := List.of_mem_filter hmem
    simp at this

/-!
## Theorems: the blueprint merger's extension-bundle dedup (claim C7)
-/

/-- C7: when the override carries `phpExtensionBundles`, the merged bundle
list has no duplicate entries (even when base and override share names) and
equals the concatenation of the base list then the override list,
deduplicated preserving the first occurrence of each name. -/
theorem mergeBlueprints_bundles_spec (B O : Blueprint) (ob : List String)
    (h : O.phpExtensionBundles = some ob) :
    ∃ m : List String, (mergeBlueprints B O).phpExtensionBundles = some m ∧
      m.Nodup ∧ m = dedupKeepFirst ((B.phpExtensionBundles.getD []) ++ ob) := by
  refine ⟨jsDedupFilter ((B.phpExtensionBundles.getD []) ++ ob), ?_, ?_, ?_⟩
  · simp [mergeBlueprints, h]
  · rw [jsDedupFilter_eq_dedupKeepFirst]
    exact nodup_dedupKeepFirst _
  · exact jsDedupFilter_eq_dedupKeepFirst _

/-- Witness for C7 at two concrete documents sharing the bundle name
`kitchen-sink`. -/
theorem mergeBlueprints_bundles_spec_witness :
    ∃ m : List String,
      (mergeBlueprints bundlesBaseBlueprint bundlesOverrideBlueprint).phpExtensionBundles
        = some m ∧
      m.Nodup ∧ m = dedupKeepFirst (["kitchen-sink"] ++ ["kitchen-sink", "light"]) := by
  obtain ⟨m, hm, hnd, heq⟩ :=
    mergeBlueprints_bundles_spec bundlesBaseBlueprint bundlesOverrideBlueprint
      ["kitchen-sink", "light"] rfl
  exact ⟨m, hm, hnd, heq⟩

/-!
## Generator step-list helpers and lemmas (claims C1, C4, C5, C9, C10)
-/

/-- The generated step list, phase by phase (the appends as the source pushes
them). -/
theorem generateWooCommerceBlueprint_steps (options : BlueprintGeneratorOptions) :
    (generateWooCommerceBlueprint options).steps =
      some (wcBaseSteps (options.siteName.getD "My WooCommerce Store")
          (options.additionalPlugins.getD [])
        ++ wcImportOrSampleSteps (options.products.getD [])
        ++ options.additionalSteps.getD []
        ++ [wcPlaygroundHelpersStep]) := rfl

/-- C9: whatever the options, the generated document always has `login = true`,
`phpExtensionBundles = ["kitchen-sink"]` and `features = \x7bnetworking: true\x7d`;
no option influences these three fields. -/
theorem generateWooCommerceBlueprint_constant_fields (options : BlueprintGeneratorOptions) :
    (generateWooCommerceBlueprint options).login = some true ∧
    (generateWooCommerceBlueprint options).phpExtensionBundles = some ["kitchen-sink"] ∧
    (generateWooCommerceBlueprint options).features = some [("networking", true)] :=
  ⟨rfl, rfl, rfl⟩

/-- C1 (amended): `generateWooCommerceBlueprint \x7b\x7d` yields
`preferredVersions = \x7bphp: "8.0", wp: "latest"\x7d`; its step sequence's *first*
step is the install-plugin step for the slug `"woocommerce"` (the second
installs `"query-monitor"`), and its last step is the developer-helper
file-write step (the playground-helpers mu-plugin). -/
theorem generateWooCommerceBlueprint_empty_spec :
    (generateWooCommerceBlueprint emptyGeneratorOptions).preferredVersions
      = some { php := some "8.0", wp := some "latest" } ∧
    ∃ steps : List BlueprintStep,
      (generateWooCommerceBlueprint emptyGeneratorOptions).steps = some steps ∧
      steps[0]? = some (BlueprintStep.installPlugin "wordpress.org/plugins" "woocommerce") ∧
      steps.getLast? = some wcPlaygroundHelpersStep := by
  refine ⟨rfl, _, rfl, rfl, ?_⟩
  rfl

/-- C1 counterexample: in the document generated for the empty options
object, the step sequence's second step is the install-plugin step for
`"query-monitor"`, not an install of the slug `"woocommerce"`. -/
theorem generateWooCommerceBlueprint_empty_second_step :
    ∃ steps : List BlueprintStep,
      (generateWooCommerceBlueprint emptyGeneratorOptions).steps = some steps ∧
      steps[1]? = some (BlueprintStep.installPlugin "wordpress.org/plugins" "query-monitor") ∧
      steps[1]?.map (isInstallOf "woocommerce") = some false :=
  ⟨_, rfl, rfl, rfl⟩

/-- Two cons cells are skipped by a `getElem?` at an index shifted by two. -/
theorem getElem?_cons_cons_add_two {α : Type} (x y : α) (l : List α) (n : Nat) :
    (x :: y :: l)[n + 2]? = l[n]? := by
  rw [show n + 2 = (n + 1) + 1 from rfl, List.getElem?_cons_succ, List.getElem?_cons_succ]

/-- C10: for each additional plugin slug at position `i`, the generator emits
its install step at index `i + 2` (after the two fixed installs, caller order
preserved) and its activation step at index `n + i + 4` (after all installs
and the two fixed activations, same order), whose `pluginPath` is exactly
`slug ++ "/" ++ slug ++ ".php"` — a fixed naming convention, so a plugin
whose main file is not named after its directory gets a wrong activation
path.  Each slug's install index is strictly below its activation index. -/
theorem generateWooCommerceBlueprint_additional_plugins
    (options : BlueprintGeneratorOptions) (i : Nat) (p : String)
    (hp : (options.additionalPlugins.getD [])[i]? = some p) :
    ∃ steps : List BlueprintStep,
      (generateWooCommerceBlueprint options).steps = some steps ∧
      steps[i + 2]? = some (BlueprintStep.installPlugin "wordpress.org/plugins" p) ∧
      steps[(options.additionalPlugins.getD []).length + i + 4]?
        = some (BlueprintStep.activatePlugin (p ++ "/" ++ p ++ ".php")) ∧
      i + 2 < (options.additionalPlugins.getD []).length + i + 4 := by
  obtain ⟨hi, -⟩ := List.getElem?_eq_some.mp hp
  refine ⟨_, generateWooCommerceBlueprint_steps options, ?_, ?_, by omega⟩
  · rw [wcBaseSteps]
    simp only [List.cons_append, List.append_assoc, List.nil_append]
    rw [getElem?_cons_cons_add_two,
      List.getElem?_append_left (by simpa using hi),
      List.getElem?_map, hp]
    rfl
  · rw [wcBaseSteps]
    simp only [List.cons_append, List.append_assoc, List.nil_append]
    rw [show (options.additionalPlugins.getD []).length + i + 4
        = ((options.additionalPlugins.getD []).length + i + 2) + 2 from rfl,
      getElem?_cons_cons_add_two,
      List.getElem?_append_right (by simp only [List.length_map]; omega)]
    simp only [List.length_map]
    rw [show (options.additionalPlugins.getD []).length + i + 2
          - (options.additionalPlugins.getD []).length = i + 2 from by omega,
      getElem?_cons_cons_add_two,
      List.getElem?_append_left (by simpa using hi),
      List.getElem?_map, hp]
    rfl

/-- Witness for C10 at the slug `akismet` in position 0. -/
theorem generateWooCommerceBlueprint_additional_plugins_witness :
    (akismetOptions.additionalPlugins.getD [])[0]? = some "akismet" ∧
    (∃ steps : List BlueprintStep,
      (generateWooCommerceBlueprint akismetOptions).steps = some steps ∧
      steps[0 + 2]? = some (BlueprintStep.installPlugin "wordpress.org/plugins" "akismet") ∧
      steps[(akismetOptions.additionalPlugins.getD []).length + 0 + 4]?
        = some (BlueprintStep.activatePlugin ("akismet" ++ "/" ++ "akismet" ++ ".php")) ∧
      0 + 2 < (akismetOptions.additionalPlugins.getD []).length + 0 + 4) :=
  ⟨rfl, generateWooCommerceBlueprint_additional_plugins akismetOptions 0 "akismet" rfl⟩

/-- No step of the generator's initial step array writes the import-helper
file. -/
theorem importWrite_not_mem_wcBaseSteps (siteName : String) (aps : List String) (d : String) :
    BlueprintStep.writeFile "/wp-content/mu-plugins/import-products.php" d
      ∉ wcBaseSteps siteName aps := by
  intro h
  simp [wcBaseSteps] at h

/-- No step of the generator's initial step array is the default-sample-data
step (the initial array contains no `runPHP` step at all). -/
theorem sample_not_mem_wcBaseSteps (siteName : String) (aps : List String) :
    BlueprintStep.runPHP sampleDataScript ∉ wcBaseSteps siteName aps := by
  intro h
  simp [wcBaseSteps] at h

/-- The product branch contains a write of the import-helper file exactly
when products were supplied (and then its data is the generated script). -/
theorem importWrite_mem_wcImportOrSampleSteps (ps : List ProductImport) (d : String) :
    (BlueprintStep.writeFile "/wp-content/mu-plugins/import-products.php" d
      ∈ wcImportOrSampleSteps ps) ↔ ps ≠ [] ∧ d = generateProductImportScript ps := by
  cases ps with
  | nil => simp [wcImportOrSampleSteps]
  | cons q qs => simp [wcImportOrSampleSteps]

/-- The product branch contains the default-sample-data step exactly when no
products were supplied. -/
theorem sample_mem_wcImportOrSampleSteps (ps : List ProductImport) :
    (BlueprintStep.runPHP sampleDataScript ∈ wcImportOrSampleSteps ps) ↔ ps = [] := by
  have h1 : sampleDataScript ≠ importRunCode := by decide
  have h2 : sampleDataScript ≠ importUnlinkCode := by decide
  cases ps with
  | nil => simp [wcImportOrSampleSteps]
  | cons q qs => simp [wcImportOrSampleSteps, h1, h2]

/-- C4 (amended): for every option set whose `additionalSteps` does not
itself smuggle in an import-helper write or the default-sample-data step,
the generated step sequence contains an import-helper write step iff the
products option is a non-empty list, contains the default-sample-data step
iff the products option is empty or absent, and never contains both.  (The
restriction on `additionalSteps` is forced: the source appends caller steps
verbatim, so a caller can inject either step and break the claimed
exclusivity over arbitrary option sets.) -/
theorem generateWooCommerceBlueprint_import_xor_sample (options : BlueprintGeneratorOptions)
    (hclean : ∀ s ∈ options.additionalSteps.getD [],
      (∀ d : String,
        s ≠ BlueprintStep.writeFile "/wp-content/mu-plugins/import-products.php" d) ∧
      s ≠ BlueprintStep.runPHP sampleDataScript) :
    ∃ steps : List BlueprintStep,
      (generateWooCommerceBlueprint options).steps = some steps ∧
      ((∃ d : String,
          BlueprintStep.writeFile "/wp-content/mu-plugins/import-products.php" d ∈ steps)
        ↔ options.products.getD [] ≠ []) ∧
      ((BlueprintStep.runPHP sampleDataScript ∈ steps) ↔ options.products.getD [] = []) ∧
      ¬((∃ d : String,
          BlueprintStep.writeFile "/wp-content/mu-plugins/import-products.php" d ∈ steps)
        ∧ BlueprintStep.runPHP sampleDataScript ∈ steps) := by
  have hW : (∃ d : String,
      BlueprintStep.writeFile "/wp-content/mu-plugins/import-products.php" d
        ∈ wcBaseSteps (options.siteName.getD "My WooCommerce Store")
            (options.additionalPlugins.getD [])
          ++ wcImportOrSampleSteps (options.products.getD [])
          ++ options.additionalSteps.getD []
          ++ [wcPlaygroundHelpersStep])
      ↔ options.products.getD [] ≠ [] := by
    constructor
    · rintro ⟨d, hd⟩
      rcases List.mem_append.mp hd with hd | hd
      · rcases List.mem_append.mp hd with hd | hd
        · rcases List.mem_append.mp hd with hd | hd
          · exact absurd hd (importWrite_not_mem_wcBaseSteps _ _ _)
          · exact ((importWrite_mem_wcImportOrSampleSteps _ _).mp hd).1
        · exact absurd rfl ((hclean _ hd).1 d)
      · simp [wcPlaygroundHelpersStep] at hd
    · intro hps
      exact ⟨generateProductImportScript (options.products.getD []),
        List.mem_append.mpr (Or.inl (List.mem_append.mpr (Or.inl (List.mem_append.mpr (Or.inr
          ((importWrite_mem_wcImportOrSampleSteps _ _).mpr ⟨hps, rfl⟩))))))⟩
  have hS : (BlueprintStep.runPHP sampleDataScript
        ∈ wcBaseSteps (options.siteName.getD "My WooCommerce Store")
            (options.additionalPlugins.getD [])
          ++ wcImportOrSampleSteps (options.products.getD [])
          ++ options.additionalSteps.getD []
          ++ [wcPlaygroundHelpersStep])
      ↔ options.products.getD [] = [] := by
    constructor
    · intro hd
      rcases List.mem_append.mp hd with hd | hd
      · rcases List.mem_append.mp hd with hd | hd
        · rcases List.mem_append.mp hd with hd | hd
          · exact absurd hd (sample_not_mem_wcBaseSteps _ _)
          · exact (sample_mem_wcImportOrSampleSteps _).mp hd
        · exact absurd rfl (hclean _ hd).2
      · simp [wcPlaygroundHelpersStep] at hd
    · intro hps
      exact List.mem_append.mpr (Or.inl (List.mem_append.mpr (Or.inl (List.mem_append.mpr (Or.inr
        ((sample_mem_wcImportOrSampleSteps _).mpr hps))))))
  exact ⟨_, generateWooCommerceBlueprint_steps options, hW, hS,
    fun hc => (hW.mp hc.1) (hS.mp hc.2)⟩

/-- Witness for C4 at the empty options object (whose `additionalSteps` is
absent, hence clean). -/
theorem generateWooCommerceBlueprint_import_xor_sample_witness :
    ∃ steps : List BlueprintStep,
      (generateWooCommerceBlueprint emptyGeneratorOptions).steps = some steps ∧
      ((∃ d : String,
          BlueprintStep.writeFile "/wp-content/mu-plugins/import-products.php" d ∈ steps)
        ↔ emptyGeneratorOptions.products.getD [] ≠ []) ∧
      ((BlueprintStep.runPHP sampleDataScript ∈ steps)
        ↔ emptyGeneratorOptions.products.getD [] = []) ∧
      ¬((∃ d : String,
          BlueprintStep.writeFile "/wp-content/mu-plugins/import-products.php" d ∈ steps)
        ∧ BlueprintStep.runPHP sampleDataScript ∈ steps) :=
  generateWooCommerceBlueprint_import_xor_sample emptyGeneratorOptions
    (fun s hs => absurd hs (List.not_mem_nil s))

/-- C4 counterexample: with a non-empty products list and an
`additionalSteps` list carrying the default-sample-data step, the generated
step sequence contains the import-helper write *and* the default-sample-data
step — refuting, over arbitrary option sets, both "contains a
default-sample-data step iff products is empty" and "never both". -/
theorem generateWooCommerceBlueprint_both_import_and_sample :
    ∃ steps : List BlueprintStep,
      (generateWooCommerceBlueprint sampleInjectionOptions).steps = some steps ∧
      sampleInjectionOptions.products.getD [] ≠ [] ∧
      BlueprintStep.runPHP sampleDataScript ∈ steps ∧
      (∃ d : String,
        BlueprintStep.writeFile "/wp-content/mu-plugins/import-products.php" d ∈ steps) := by
  refine ⟨_, generateWooCommerceBlueprint_steps sampleInjectionOptions, by simp [sampleInjectionOptions], ?_, ?_⟩
  · exact List.mem_append.mpr (Or.inl (List.mem_append.mpr (Or.inr (by
      simp [sampleInjectionOptions]))))
  · refine ⟨generateProductImportScript (sampleInjectionOptions.products.getD []), ?_⟩
    exact List.mem_append.mpr (Or.inl (List.mem_append.mpr (Or.inl (List.mem_append.mpr (Or.inr
      ((importWrite_mem_wcImportOrSampleSteps _ _).mpr ⟨by simp [sampleInjectionOptions], rfl⟩))))))

/-- C5: for every non-empty products list, `generateWooCommerceBlueprint`
with only the products option set yields a step sequence with no
default-sample-data step and exactly one file-write step whose path ends in
`import-products.php` — at index 8, immediately followed at index 9 by the
`runPHP` step whose code `require`s that file, and at index 10 by the
removal `runPHP` step whose code `unlink`s that same file in the same
generation pass. -/
theorem generateWooCommerceBlueprint_products_block (ps : List ProductImport) (h : ps ≠ []) :
    ∃ steps : List BlueprintStep,
      (generateWooCommerceBlueprint (productsOnlyOptions ps)).steps = some steps ∧
      BlueprintStep.runPHP sampleDataScript ∉ steps ∧
      steps.countP isImportHelperWrite = 1 ∧
      steps[8]? = some (BlueprintStep.writeFile "/wp-content/mu-plugins/import-products.php"
        (generateProductImportScript ps)) ∧
      steps[9]? = some (BlueprintStep.runPHP importRunCode) ∧
      steps[10]? = some (BlueprintStep.runPHP importUnlinkCode) := by
  have hpos : 0 < ps.length := List.length_pos.mpr h
  have hsteps : (generateWooCommerceBlueprint (productsOnlyOptions ps)).steps = some
      (BlueprintStep.installPlugin "wordpress.org/plugins" "woocommerce"
        :: BlueprintStep.installPlugin "wordpress.org/plugins" "query-monitor"
        :: BlueprintStep.activatePlugin "woocommerce/woocommerce.php"
        :: BlueprintStep.activatePlugin "query-monitor/query-monitor.php"
        :: BlueprintStep.mkdir "/wp-content/mu-plugins"
        :: BlueprintStep.writeFile "/wp-content/mu-plugins/rewrite.php" rewriteScript
        :: BlueprintStep.setSiteOptions (wooCommerceSiteOptions "My WooCommerce Store")
        :: BlueprintStep.writeFile "/wp-content/mu-plugins/debug-config.php" debugConfigScript
        :: BlueprintStep.writeFile "/wp-content/mu-plugins/import-products.php"
             (generateProductImportScript ps)
        :: BlueprintStep.runPHP importRunCode
        :: BlueprintStep.runPHP importUnlinkCode
        :: [wcPlaygroundHelpersStep]) := by
    simp [generateWooCommerceBlueprint, wcBaseSteps, wcImportOrSampleSteps,
      productsOnlyOptions, hpos]
  refine ⟨_, hsteps, ?_, ?_, rfl, rfl, rfl⟩
  · have h1 : sampleDataScript ≠ importRunCode := by decide
    have h2 : sampleDataScript ≠ importUnlinkCode := by decide
    intro hmem
    simp [wcPlaygroundHelpersStep, h1, h2] at hmem
  · have w1 : ∀ d : String, isImportHelperWrite
        (BlueprintStep.writeFile "/wp-content/mu-plugins/import-products.php" d) = true :=
      fun _ => rfl
    have w2 : isImportHelperWrite
        (BlueprintStep.writeFile "/wp-content/mu-plugins/rewrite.php" rewriteScript) = false := rfl
    have w3 : isImportHelperWrite
        (BlueprintStep.writeFile "/wp-content/mu-plugins/debug-config.php" debugConfigScript)
        = false := rfl
    have w4 : isImportHelperWrite wcPlaygroundHelpersStep = false := rfl
    have w5 : ∀ r s : String, isImportHelperWrite (BlueprintStep.installPlugin r s) = false :=
      fun _ _ => rfl
    have w6 : ∀ p : String, isImportHelperWrite (BlueprintStep.activatePlugin p) = false :=
      fun _ => rfl
    have w7 : ∀ p : String, isImportHelperWrite (BlueprintStep.mkdir p) = false := fun _ => rfl
    have w8 : ∀ o : List (String × OptionValue),
        isImportHelperWrite (BlueprintStep.setSiteOptions o) = false := fun _ => rfl
    have w9 : ∀ c : String, isImportHelperWrite (BlueprintStep.runPHP c) = false := fun _ => rfl
    simp only [List.countP_cons, List.countP_nil, w1, w2, w3, w4, w5, w6, w7, w8, w9,
      if_true, if_false, Bool.false_eq_true]

/-- Witness for C5 at the concrete one-record products list. -/
theorem generateWooCommerceBlueprint_products_block_witness :
    ([sampleProductImport] ≠ ([] : List ProductImport)) ∧
    (∃ steps : List BlueprintStep,
      (generateWooCommerceBlueprint (productsOnlyOptions [sampleProductImport])).steps
        = some steps ∧
      BlueprintStep.runPHP sampleDataScript ∉ steps ∧
      steps.countP isImportHelperWrite = 1 ∧
      steps[8]? = some (BlueprintStep.writeFile "/wp-content/mu-plugins/import-products.php"
        (generateProductImportScript [sampleProductImport])) ∧
      steps[9]? = some (BlueprintStep.runPHP importRunCode) ∧
      steps[10]? = some (BlueprintStep.runPHP importUnlinkCode)) :=
  ⟨by simp, generateWooCommerceBlueprint_products_block [sampleProductImport] (by simp)⟩
